import Mathlib

/-!
Shallow embedding of the DM-Bot-network server core
(`src/DMBotNetwork/main/server.py` and
`src/DMBotNetwork/main/utils/response_code.py`).

Python runtime values are modelled by `PyScalar` (field values) and
`PyVal` (a received object: a scalar or a one-level dictionary, matching
the wire envelopes the server handles), Python dictionaries by association
lists with first-match lookup, and the asynchronous I/O surface of the
(external) `ClUnit` transport by explicit event lists.
-/

set_option autoImplicit false

/-- A scalar Python runtime value as it occurs in an envelope field:
`None`, a bool, an int, or a str. -/
inductive PyScalar where
  | none : PyScalar
  | bool : Bool → PyScalar
  | int : Int → PyScalar
  | str : String → PyScalar
deriving DecidableEq

/-- A Python object handed to the server by `receive_package()`: a scalar
or a dictionary mapping field names to scalar values. -/
inductive PyVal where
  | scalar : PyScalar → PyVal
  | dict : List (String × PyScalar) → PyVal
deriving DecidableEq

/-- Python truthiness (`bool(v)`) of a scalar: `None`/`False`/`0`/`""`
are falsy. -/
def pyTruthy : PyScalar → Bool
  | PyScalar.none => false
  | PyScalar.bool b => b
  | PyScalar.int n => n != 0
  | PyScalar.str s => s ≠ ""

/-- Python `repr` of a scalar, as used in the `ValueError` message raised
by `ResponseCode(code)` on a non-member value. -/
def pyRepr : PyScalar → String
  | PyScalar.none => "None"
  | PyScalar.bool b => if b then "True" else "False"
  | PyScalar.int n => toString n
  | PyScalar.str s => "\x27" ++ s ++ "\x27"

section AList

variable {κ α : Type} [DecidableEq κ]

/-- `d.get(k, default)`-style lookup: first entry with the given key. -/
def alistGet? : List (κ × α) → κ → Option α
  | [], _ => Option.none
  | kv :: rest, k => if kv.1 = k then some kv.2 else alistGet? rest k

/-- `d.pop(k, default)`: the value found under `k` (if any) together with
the list with that entry removed. -/
def alistPop : List (κ × α) → κ → Option α × List (κ × α)
  | [], _ => (Option.none, [])
  | kv :: rest, k =>
    if kv.1 = k then (some kv.2, rest)
    else
      let (v, rest') := alistPop rest k
      (v, kv :: rest')

/-- `d[k] = v`: replace the entry under `k` if present, else append. -/
def alistSet : List (κ × α) → κ → α → List (κ × α)
  | [], k, v => [(k, v)]
  | kv :: rest, k, v =>
    if kv.1 = k then (k, v) :: rest else kv :: alistSet rest k v

end AList

/-- The wire code enumeration of `response_code.py` (`IntEnum`). -/
inductive ResponseCode where
  | AUTH_REQ | AUTH_ANS_LOGIN | AUTH_ANS_REGIS | AUTH_ANS_SERVE
  | NET_REQ
  | FIL_REQ | FIL_END
  | LOG_DEB | LOG_INF | LOG_WAR | LOG_ERR
deriving DecidableEq

namespace ResponseCode

/-- The stable integer each member carries on the wire. -/
def toInt : ResponseCode → Int
  | AUTH_REQ => 10
  | AUTH_ANS_LOGIN => 11
  | AUTH_ANS_REGIS => 12
  | AUTH_ANS_SERVE => 19
  | NET_REQ => 20
  | FIL_REQ => 30
  | FIL_END => 31
  | LOG_DEB => 41
  | LOG_INF => 42
  | LOG_WAR => 43
  | LOG_ERR => 44

/-- Member lookup by integer value, the success side of `ResponseCode(n)`. -/
def ofInt? (n : Int) : Option ResponseCode :=
  if n = 10 then some AUTH_REQ
  else if n = 11 then some AUTH_ANS_LOGIN
  else if n = 12 then some AUTH_ANS_REGIS
  else if n = 19 then some AUTH_ANS_SERVE
  else if n = 20 then some NET_REQ
  else if n = 30 then some FIL_REQ
  else if n = 31 then some FIL_END
  else if n = 41 then some LOG_DEB
  else if n = 42 then some LOG_INF
  else if n = 43 then some LOG_WAR
  else if n = 44 then some LOG_ERR
  else Option.none

/-- `ResponseCode(v)` on a Python scalar: ints (and bools, which are ints
in Python) are looked up by value; any other value, and any int that is
not a member, raises `ValueError` (modelled by `Option.none`). -/
def ofVal? : PyScalar → Option ResponseCode
  | PyScalar.int n => ofInt? n
  | PyScalar.bool b => ofInt? (if b then 1 else 0)
  | _ => Option.none

/-- Python `v == member` for an `IntEnum` member: an int (or bool)
compares by value, everything else is unequal. -/
def pyEqCode (v : PyScalar) (c : ResponseCode) : Bool :=
  match v with
  | PyScalar.int n => n == c.toInt
  | PyScalar.bool b => (if b then (1 : Int) else 0) == c.toInt
  | _ => false

/-- `ResponseCode.is_auth` from `response_code.py`. -/
def is_auth (code : PyScalar) : Bool :=
  pyEqCode code AUTH_REQ || pyEqCode code AUTH_ANS_LOGIN
    || pyEqCode code AUTH_ANS_REGIS || pyEqCode code AUTH_ANS_SERVE

/-- `ResponseCode.is_net` from `response_code.py`: `code == cls.NET_REQ`.
The message loop calls it on the raw (unconverted) envelope value. -/
def is_net (code : PyScalar) : Bool :=
  pyEqCode code NET_REQ

/-- `ResponseCode.is_file` from `response_code.py`. -/
def is_file (code : PyScalar) : Bool :=
  pyEqCode code FIL_REQ || pyEqCode code FIL_END

/-- `ResponseCode.is_log` from `response_code.py`. -/
def is_log (code : PyScalar) : Bool :=
  pyEqCode code LOG_DEB || pyEqCode code LOG_INF
    || pyEqCode code LOG_WAR || pyEqCode code LOG_ERR

/-- Modelled from the spec: `Server._auth` calls
`ResponseCode.is_client_auth`, which is not defined in the
`response_code.py` under `src/`; the spec (§4.2 step 4) requires the reply
code to be from the authentication band, login-answer or register-answer.
It is called on an already-converted member. -/
def is_client_auth (code : ResponseCode) : Bool :=
  code == AUTH_ANS_LOGIN || code == AUTH_ANS_REGIS

end ResponseCode

/-- Per-connection state (`ClUnit`, external to `src/`): the identity the
handshake adopts plus a tag distinguishing distinct accepted transports. -/
structure ClUnit where
  login : PyScalar
  connId : Nat
deriving DecidableEq

/-- An argument value handed to a dispatched network function: a scalar
envelope field or the `ClUnit` the loop passes as `cl_unit=cl_unit`. -/
inductive PyObj where
  | scalar : PyScalar → PyObj
  | clUnit : ClUnit → PyObj
deriving DecidableEq

/-- A Python class usable as a declared parameter type annotation. -/
inductive PyType where
  | tNone | tBool | tInt | tStr | tClUnit
deriving DecidableEq

/-- Python `isinstance` for the modelled classes; a Python `bool` is an
instance of `int` (bool subclasses int). -/
def pyIsinstance : PyObj → PyType → Bool
  | PyObj.scalar PyScalar.none, PyType.tNone => true
  | PyObj.scalar (PyScalar.bool _), PyType.tBool => true
  | PyObj.scalar (PyScalar.bool _), PyType.tInt => true
  | PyObj.scalar (PyScalar.int _), PyType.tInt => true
  | PyObj.scalar (PyScalar.str _), PyType.tStr => true
  | PyObj.clUnit _, PyType.tClUnit => true
  | _, _ => false

/-- A registered network function: its declared parameter names
(`inspect.signature(func).parameters`), its class type hints
(`get_type_hints(func)`; a parameter hinted `Any`, or not hinted, is
absent from the list, so `type_hints.get(arg_name, Any)` yields `Any`
for it — which `isinstance` then rejects at run time, see
`Server.typeCheckArgs`), and its body, whose `Except` error channel
models an exception raised during invocation. -/
structure NetFunc where
  params : List String
  hints : List (String × PyType)
  run : List (String × PyObj) → Except String Unit

/-- What a single dispatch did, as recorded by `Server._call_func`'s
logging: the function was absent, a declared-type mismatch aborted the
call before invocation, or the function was invoked with the filtered
keyword arguments (`raised` holds the message of an exception the
invocation raised, which `_call_func` catches and logs). -/
inductive CallLog where
  | notFound
  | typeMismatch (arg : String)
  | invoked (args : List (String × PyObj)) (raised : Option String)

namespace Server

/-- `cls._network_funcs.get(func_name)`: the registry is keyed by strings,
so a non-string name (for example `None` when the envelope lacks
`net_func_name`) finds nothing. -/
def lookupFunc (funcs : List (String × NetFunc)) (name : PyScalar) :
    Option NetFunc :=
  match name with
  | PyScalar.str s => alistGet? funcs s
  | _ => Option.none

/-- The keyword arguments that survive `_call_func`'s filter:
`{k: v for k, v in kwargs.items() if k in sig.parameters}`. -/
def validKwargs (f : NetFunc) (kwargs : List (String × PyObj)) :
    List (String × PyObj) :=
  kwargs.filter (fun kv => f.params.contains kv.1)

/-- `_call_func`'s type-check loop over the filtered arguments, in
order. For each argument the source evaluates
`not isinstance(arg_value, expected_type)` BEFORE the
`expected_type is not Any` guard; since
`expected_type = type_hints.get(arg_name, Any)` is `Any` for an unhinted
or `Any`-hinted parameter and `isinstance` rejects `typing.Any`, that
argument raises `TypeError` (the `Except.error`), outside any `try`. A
class-hinted argument that fails `isinstance` returns the first
mismatching name (`Except.ok (some name)`); otherwise all pass
(`Except.ok Option.none`). -/
def typeCheckArgs (f : NetFunc) :
    List (String × PyObj) → Except String (Option String)
  | [] => Except.ok Option.none
  | kv :: rest =>
    match alistGet? f.hints kv.1 with
    | Option.none =>
      Except.error "typing.Any cannot be used with isinstance()"
    | some t =>
      if !pyIsinstance kv.2 t then Except.ok (some kv.1)
      else typeCheckArgs f rest

/-- `Server._call_func`: look the name up (absent: log and return), filter
the keyword arguments to declared parameters, type-check them (a
mismatch: log and return before invoking; an unhinted or `Any`-hinted
argument: `isinstance` raises `TypeError` before the `try` block, which
propagates to the caller), then invoke, catching and logging any
exception raised by the body. The outer `Except` layer is the exception
channel to the caller. -/
def callFunc (funcs : List (String × NetFunc)) (name : PyScalar)
    (kwargs : List (String × PyObj)) : Except String CallLog :=
  match lookupFunc funcs name with
  | Option.none => Except.ok CallLog.notFound
  | some f =>
    let valid := validKwargs f kwargs
    match typeCheckArgs f valid with
    | Except.error e => Except.error e
    | Except.ok (some a) => Except.ok (CallLog.typeMismatch a)
    | Except.ok Option.none =>
      match f.run valid with
      | Except.ok _ => Except.ok (CallLog.invoked valid Option.none)
      | Except.error e => Except.ok (CallLog.invoked valid (some e))

end Server

/-- An envelope or error notice sent to the peer, or a transport
disconnect, as issued by the server on one connection. -/
inductive OutEvent where
  | sendPackage (code : ResponseCode) (fields : List (String × PyScalar))
  | sendLogError (msg : String)
  | disconnect
deriving DecidableEq

/-- A disconnect-class transport failure the loop treats as normal
termination, or any other exception raised while receiving. -/
inductive TransportErr where
  | cancelled | connAborted | incompleteRead | connReset
  | other (msg : String)
deriving DecidableEq

/-- One step of input to the message loop: `receive_package()` returned a
value, or raised. -/
inductive InEvent where
  | pkg (v : PyVal)
  | exn (e : TransportErr)
deriving DecidableEq

/-- How the message loop of `Server._cl_handler` ended: the online flag
went down (normal `while` exit), a disconnect-class failure (the grouped
`except` that passes), or any other exception (reported to the peer). -/
inductive LoopExit where
  | offline
  | transportClass
  | unexpected (msg : String)
deriving DecidableEq

namespace Server

/-- One iteration body of the authenticated message loop
(`Server._cl_handler`, the `while` body): reject non-dict envelopes,
require a truthy `code`, dispatch `NET_REQ` envelopes through
`cls._call_func(func_name, cl_unit=cl_unit, **receive_package)` (which
sends nothing), and error-log any other code. The `Except` layer is an
exception escaping the body: Python raises `TypeError` at that call site
when the leftover envelope fields themselves carry a `cl_unit` key
(colliding with the explicit keyword) or a `func_name` key (colliding
with the positional argument), and `_call_func` itself can raise (see
`Server.callFunc`); the value is the replies sent plus the dispatch log,
if any. -/
def loopIter (funcs : List (String × NetFunc)) (u : ClUnit) (v : PyVal) :
    Except String (List OutEvent × Option CallLog) :=
  match v with
  | PyVal.scalar _ =>
    Except.ok ([OutEvent.sendLogError "Receive data type expected dict."],
      Option.none)
  | PyVal.dict es =>
    let (codeOpt, rest) := alistPop es "code"
    let code := codeOpt.getD PyScalar.none
    if !pyTruthy code then
      Except.ok ([OutEvent.sendLogError "Receive data must has \x27code\x27 key."],
        Option.none)
    else if ResponseCode.is_net code then
      let (fnOpt, rest2) := alistPop rest "net_func_name"
      let fn := fnOpt.getD PyScalar.none
      if (alistGet? rest2 "cl_unit").isSome then
        Except.error
          "got multiple values for keyword argument \x27cl_unit\x27"
      else if (alistGet? rest2 "func_name").isSome then
        Except.error "got multiple values for argument \x27func_name\x27"
      else
        let kwargs := ("cl_unit", PyObj.clUnit u)
          :: rest2.map (fun kv => (kv.1, PyObj.scalar kv.2))
        match callFunc funcs fn kwargs with
        | Except.ok log => Except.ok ([], some log)
        | Except.error e => Except.error e
    else
      Except.ok ([OutEvent.sendLogError "Unknown \x27code\x27 for net type."],
        Option.none)

/-- The authenticated message loop run over a finite script. Each script
entry is the value of `cls._is_online` at the `while` check paired with
what `receive_package()` then does. The result is the replies sent and
how the loop exited; `Option.none` means the script ran out with the loop
still running. -/
def clLoopRun (funcs : List (String × NetFunc)) (u : ClUnit) :
    List (Bool × InEvent) → List OutEvent × Option LoopExit
  | [] => ([], Option.none)
  | (online, ev) :: rest =>
    if !online then ([], some LoopExit.offline)
    else
      match ev with
      | InEvent.exn TransportErr.cancelled => ([], some LoopExit.transportClass)
      | InEvent.exn TransportErr.connAborted => ([], some LoopExit.transportClass)
      | InEvent.exn TransportErr.incompleteRead => ([], some LoopExit.transportClass)
      | InEvent.exn TransportErr.connReset => ([], some LoopExit.transportClass)
      | InEvent.exn (TransportErr.other m) => ([], some (LoopExit.unexpected m))
      | InEvent.pkg v =>
        match loopIter funcs u v with
        | Except.error m => ([], some (LoopExit.unexpected m))
        | Except.ok (evs, _) =>
          let (evs', ex) := clLoopRun funcs u rest
          (evs ++ evs', ex)

end Server

/-- How `Server._auth` failed, keyed by the exception class
`Server._cl_handler` catches: `TimeoutError`, `ValueError` (with its
message), or any other exception. -/
inductive AuthFail where
  | timeout
  | valueErr (msg : String)
  | unexpected (msg : String)
deriving DecidableEq

/-- What `asyncio.wait_for(cl_unit.receive_package(), timeout)` did during
the handshake: timed out, raised some other exception, or delivered a
value. -/
inductive AuthReceive where
  | timeout
  | transportErr (msg : String)
  | pkg (v : PyVal)
deriving DecidableEq

/-- A Python exception raised by the (external) `ServerDB` store, split by
the class `Server._cl_handler` discriminates on. -/
inductive PyExn where
  | valueError (msg : String)
  | otherError (msg : String)
deriving DecidableEq

/-- The Credential & Access Store boundary (`ServerDB`, external to
`src/`): `add_user` and `login_user` either return or raise. -/
structure DBOracle where
  addUser : PyScalar → PyScalar → Except PyExn Unit
  loginUser : PyScalar → PyScalar → Except PyExn Unit

/-- The server configuration fields `Server._auth` reads. -/
structure ServerCfg where
  serverName : String
  allowRegistration : Bool
  maxPlayers : Int

namespace Server

/-- The shape-and-code validation of `Server._auth` (lines 229-239): the
reply must be a dict, its `code` must be truthy, convert through
`ResponseCode(code)` (`ValueError` on a non-member), and the member must
satisfy `is_client_auth`. -/
def authCodeCheck (v : PyVal) : Except AuthFail ResponseCode :=
  match v with
  | PyVal.scalar _ =>
    Except.error (AuthFail.valueErr "Receive data type expected dict.")
  | PyVal.dict es =>
    let code := (alistGet? es "code").getD PyScalar.none
    if !pyTruthy code then
      Except.error (AuthFail.valueErr "Receive data must has \x27code\x27 key.")
    else
      match ResponseCode.ofVal? code with
      | Option.none =>
        Except.error (AuthFail.valueErr
          (pyRepr code ++ " is not a valid ResponseCode"))
      | some c =>
        if !ResponseCode.is_client_auth c then
          Except.error (AuthFail.valueErr "Unknown \x27code\x27 for auth type.")
        else Except.ok c

/-- The validation phase of `Server._auth` (lines 229-244): the code
checks, then non-empty `login` and `password` fields. -/
def authValidate (v : PyVal) :
    Except AuthFail (ResponseCode × PyScalar × PyScalar) :=
  match authCodeCheck v with
  | Except.error e => Except.error e
  | Except.ok c =>
    match v with
    | PyVal.scalar _ =>
      Except.error (AuthFail.valueErr "Receive data type expected dict.")
    | PyVal.dict es =>
      let login := (alistGet? es "login").getD PyScalar.none
      let password := (alistGet? es "password").getD PyScalar.none
      if !(pyTruthy login && pyTruthy password) then
        Except.error (AuthFail.valueErr
          "Receive data must has \x27login\x27 and \x27password\x27 keys.")
      else Except.ok (c, login, password)

/-- `Server._auth`: capacity check first (before any I/O), then the
awaited reply, the validation phase, registration policy, and the store
delegation; on success the adopted login is returned. -/
def auth (cfg : ServerCfg) (nLive : Nat) (recv : AuthReceive)
    (db : DBOracle) : Except AuthFail PyScalar :=
  if cfg.maxPlayers != -1 && cfg.maxPlayers ≤ (nLive : Int) then
    Except.error (AuthFail.valueErr "Server is full.")
  else
    match recv with
    | AuthReceive.timeout => Except.error AuthFail.timeout
    | AuthReceive.transportErr m => Except.error (AuthFail.unexpected m)
    | AuthReceive.pkg v =>
      match authValidate v with
      | Except.error e => Except.error e
      | Except.ok (c, login, password) =>
        if c == ResponseCode.AUTH_ANS_REGIS then
          if !cfg.allowRegistration then
            Except.error (AuthFail.valueErr "Registration is not allowed.")
          else
            match db.addUser login password with
            | Except.error (PyExn.valueError m) =>
              Except.error (AuthFail.valueErr m)
            | Except.error (PyExn.otherError m) =>
              Except.error (AuthFail.unexpected m)
            | Except.ok _ => Except.ok login
        else
          match db.loginUser login password with
          | Except.error (PyExn.valueError m) =>
            Except.error (AuthFail.valueErr m)
          | Except.error (PyExn.otherError m) =>
            Except.error (AuthFail.unexpected m)
          | Except.ok _ => Except.ok login

end Server

/-- How one `Server._cl_handler` task ended: the handshake raised (the
exception is reported and the connection dropped before joining the live
set), or the message loop exited. -/
inductive HandlerExit where
  | authFailed (f : AuthFail)
  | loopDone (e : LoopExit)
deriving DecidableEq

/-- The observable outcome of one `Server._cl_handler` task over a finite
script: the live-connection set it leaves behind, everything sent on the
connection, and how (whether) it exited. -/
structure HandlerResult where
  units : List (PyScalar × ClUnit)
  out : List OutEvent
  exit : Option HandlerExit

namespace Server

/-- The message `Server._cl_handler` sends for each handshake exception
class (lines 162-175). -/
def authFailMsg : AuthFail → String
  | AuthFail.timeout => "Timeout for auth."
  | AuthFail.valueErr m => m
  | AuthFail.unexpected m => "An unexpected error occurred: " ++ m

/-- The notice the loop's `except Exception` branch sends before the
`finally` cleanup; the normal and disconnect-class exits send nothing. -/
def loopExitEvents : LoopExit → List OutEvent
  | LoopExit.unexpected m =>
    [OutEvent.sendLogError ("An unexpected error occurred: " ++ m)]
  | _ => []

/-- `Server._cl_handler`: run `_auth` (failure: error-log the reason,
disconnect, return — the live set is untouched); on success insert the
unit under its login by plain key assignment, run the message loop, and
on loop exit run the `finally` cleanup: `pop(login, None)` from the live
set and disconnect. `newId` tags the freshly accepted transport. -/
def clHandler (cfg : ServerCfg) (db : DBOracle)
    (funcs : List (String × NetFunc)) (units : List (PyScalar × ClUnit))
    (recv : AuthReceive) (script : List (Bool × InEvent)) (newId : Nat) :
    HandlerResult :=
  match auth cfg units.length recv db with
  | Except.error f =>
    ⟨units, [OutEvent.sendLogError (authFailMsg f), OutEvent.disconnect],
      some (HandlerExit.authFailed f)⟩
  | Except.ok login =>
    let u : ClUnit := ⟨login, newId⟩
    let units1 := alistSet units login u
    let (evs, exit?) := clLoopRun funcs u script
    match exit? with
    | Option.none => ⟨units1, evs, Option.none⟩
    | some ex =>
      ⟨(alistPop units1 login).2,
        evs ++ loopExitEvents ex ++ [OutEvent.disconnect],
        some (HandlerExit.loopDone ex)⟩

end Server

/-- A state-changing action `Server.stop` performs, in program order. -/
inductive ServerEvent where
  | setOffline
  | disconnect (login : PyScalar)
  | clearUnits
  | closeListener
  | waitClosed
  | dbStop
deriving DecidableEq

/-- The process-wide coordinator state `Server.stop` touches. -/
structure ServerState where
  isOnline : Bool
  clUnits : List (PyScalar × ClUnit)
  hasListener : Bool

namespace Server

/-- `Server.stop`: raise `RuntimeError` if not online (before any
mutation); otherwise flip the online flag first, issue a disconnect to
every live connection, clear the live set, close and await the listener
when present, and stop the store. The event list records the actions in
program order. -/
def stop (s : ServerState) :
    Except String (ServerState × List ServerEvent) :=
  if !s.isOnline then Except.error "Server is not working."
  else
    Except.ok ({ s with isOnline := false, clUnits := [] },
      ServerEvent.setOffline
        :: (s.clUnits.map (fun kv => ServerEvent.disconnect kv.1)
          ++ [ServerEvent.clearUnits]
          ++ (if s.hasListener then
                [ServerEvent.closeListener, ServerEvent.waitClosed]
              else [])
          ++ [ServerEvent.dbStop]))

end Server

section AListLemmas

variable {κ α : Type} [DecidableEq κ]

theorem alistPop_fst (l : List (κ × α)) (k : κ) :
    (alistPop l k).1 = alistGet? l k := by
  induction l with
  | nil => rfl
  | cons kv rest ih =>
    by_cases h : kv.1 = k <;> simp [alistPop, alistGet?, h, ih]

theorem alistPop_absent (l : List (κ × α)) (k : κ)
    (h : alistGet? l k = Option.none) : (alistPop l k).2 = l := by
  induction l with
  | nil => rfl
  | cons kv rest ih =>
    by_cases hk : kv.1 = k
    · simp [alistGet?, hk] at h
    · simp [alistGet?, hk] at h
      simp [alistPop, hk, ih h]

theorem alistGet?_pop_ne (l : List (κ × α)) (k k' : κ) (h : k' ≠ k) :
    alistGet? (alistPop l k).2 k' = alistGet? l k' := by
  induction l with
  | nil => rfl
  | cons kv rest ih =>
    by_cases hk : kv.1 = k
    · subst hk
      simp [alistPop, alistGet?, Ne.symm h]
    · by_cases hk' : kv.1 = k' <;> simp [alistPop, alistGet?, hk, hk', h, ih]

theorem alistGet?_set_self (l : List (κ × α)) (k : κ) (v : α) :
    alistGet? (alistSet l k v) k = some v := by
  induction l with
  | nil => simp [alistSet, alistGet?]
  | cons kv rest ih =>
    by_cases hk : kv.1 = k <;> simp [alistSet, alistGet?, hk, ih]

omit [DecidableEq κ] in
theorem key_mem_of_mem {l : List (κ × α)} {k : κ} {v : α}
    (h : (k, v) ∈ l) : k ∈ l.map Prod.fst :=
  List.mem_map_of_mem Prod.fst h

theorem alistGet?_eq_none_of_not_mem {l : List (κ × α)} {k : κ}
    (h : k ∉ l.map Prod.fst) : alistGet? l k = Option.none := by
  induction l with
  | nil => rfl
  | cons kv rest ih =>
    simp only [List.map_cons, List.mem_cons] at h
    push_neg at h
    simp [alistGet?, Ne.symm h.1, ih h.2]

theorem alistSet_cons_eq {kv : κ × α} {rest : List (κ × α)} {k : κ} {v : α}
    (h : kv.1 = k) : alistSet (kv :: rest) k v = (k, v) :: rest := by
  simp [alistSet, h]

theorem alistSet_cons_ne {kv : κ × α} {rest : List (κ × α)} {k : κ} {v : α}
    (h : ¬kv.1 = k) : alistSet (kv :: rest) k v = kv :: alistSet rest k v := by
  simp [alistSet, h]

theorem keys_alistSet_subset {l : List (κ × α)} {k x : κ} {v : α}
    (h : x ∈ (alistSet l k v).map Prod.fst) :
    x ∈ l.map Prod.fst ∨ x = k := by
  induction l with
  | nil => simpa [alistSet] using h
  | cons kv rest ih =>
    by_cases hk : kv.1 = k
    · rw [alistSet_cons_eq hk] at h
      simp only [List.map_cons, List.mem_cons] at h ⊢
      rcases h with h | h
      · exact Or.inr h
      · exact Or.inl (Or.inr h)
    · rw [alistSet_cons_ne hk] at h
      simp only [List.map_cons, List.mem_cons] at h ⊢
      rcases h with h | h
      · exact Or.inl (Or.inl h)
      · rcases ih h with h' | h'
        · exact Or.inl (Or.inr h')
        · exact Or.inr h'

theorem keys_alistSet_nodup {l : List (κ × α)} {k : κ} {v : α}
    (h : (l.map Prod.fst).Nodup) :
    ((alistSet l k v).map Prod.fst).Nodup := by
  induction l with
  | nil => simp [alistSet]
  | cons kv rest ih =>
    simp only [List.map_cons, List.nodup_cons] at h
    by_cases hk : kv.1 = k
    · rw [alistSet_cons_eq hk]
      subst hk
      simpa [List.nodup_cons] using h
    · rw [alistSet_cons_ne hk]
      simp only [List.map_cons, List.nodup_cons]
      refine ⟨fun hmem => ?_, ih h.2⟩
      rcases keys_alistSet_subset hmem with h' | h'
      · exact h.1 h'
      · exact hk h'

theorem mem_alistSet_self {l : List (κ × α)} {k : κ} {v w : α}
    (hnodup : (l.map Prod.fst).Nodup) (h : (k, w) ∈ alistSet l k v) :
    w = v := by
  induction l with
  | nil => simpa [alistSet] using h
  | cons kv rest ih =>
    simp only [List.map_cons, List.nodup_cons] at hnodup
    by_cases hk : kv.1 = k
    · rw [alistSet_cons_eq hk] at h
      subst hk
      simp only [List.mem_cons] at h
      rcases h with h1 | h1
      · exact congrArg Prod.snd h1
      · exact absurd (key_mem_of_mem h1) hnodup.1
    · rw [alistSet_cons_ne hk] at h
      simp only [List.mem_cons] at h
      rcases h with h1 | h1
      · exact absurd (congrArg Prod.fst h1).symm hk
      · exact ih hnodup.2 h1

theorem alistGet?_pop_self_nodup {l : List (κ × α)} {k : κ}
    (hnodup : (l.map Prod.fst).Nodup) :
    alistGet? (alistPop l k).2 k = Option.none := by
  induction l with
  | nil => rfl
  | cons kv rest ih =>
    simp only [List.map_cons, List.nodup_cons] at hnodup
    by_cases hk : kv.1 = k
    · subst hk
      simp only [alistPop, if_pos rfl]
      exact alistGet?_eq_none_of_not_mem hnodup.1
    · simp [alistPop, alistGet?, hk, ih hnodup.2]

end AListLemmas

/-- C2: `stop()` while offline raises `RuntimeError` (before touching any
state, so the online flag, the live-connection set and the listener are
unchanged — the error return models the raise happening first); `stop()`
while online flips the online flag to offline as its first action, issues
a disconnect to every live connection, and leaves the live-connection set
empty. -/
theorem stop_offline_err_online_clears (s : ServerState) :
    (s.isOnline = false →
      Server.stop s = Except.error "Server is not working.") ∧
    (s.isOnline = true → ∃ evs,
      Server.stop s =
        Except.ok ({ s with isOnline := false, clUnits := [] }, evs) ∧
      evs.head? = some ServerEvent.setOffline ∧
      ∀ kv ∈ s.clUnits, ServerEvent.disconnect kv.1 ∈ evs) := by
  constructor
  · intro h
    simp [Server.stop, h]
  · intro h
    refine ⟨ServerEvent.setOffline
        :: (s.clUnits.map (fun kv => ServerEvent.disconnect kv.1)
          ++ [ServerEvent.clearUnits]
          ++ (if s.hasListener then
                [ServerEvent.closeListener, ServerEvent.waitClosed]
              else [])
          ++ [ServerEvent.dbStop]), ?_, rfl, ?_⟩
    · simp [Server.stop, h]
    · intro kv hkv
      exact List.mem_cons_of_mem _ (List.mem_append_left _
        (List.mem_append_left _ (List.mem_append_left _
          (List.mem_map_of_mem _ hkv))))

/-- Witness for C2 at concrete states: an offline server errors; an
online server with one live connection disconnects it and clears the
set. -/
theorem stop_offline_err_online_clears_app :
    Server.stop ⟨false, [(PyScalar.str "bob", ⟨PyScalar.str "bob", 0⟩)], true⟩
      = Except.error "Server is not working." ∧
    ∃ evs,
      Server.stop ⟨true, [(PyScalar.str "bob", ⟨PyScalar.str "bob", 0⟩)], true⟩
        = Except.ok (⟨false, [], true⟩, evs) ∧
      evs.head? = some ServerEvent.setOffline ∧
      ∀ kv ∈ [(PyScalar.str "bob", (⟨PyScalar.str "bob", 0⟩ : ClUnit))],
        ServerEvent.disconnect kv.1 ∈ evs :=
  ⟨(stop_offline_err_online_clears _).1 rfl,
   (stop_offline_err_online_clears _).2 rfl⟩

/-- C4: at handshake start, if the configured maximum is not the no-limit
sentinel `-1` and the live-connection count is at least that maximum, the
handshake fails immediately (whatever the peer then does, `recv`) with
the capacity error, and `_cl_handler` leaves the live set untouched; with
the sentinel, the handshake's outcome does not depend on the
live-connection count at all, so no capacity error ever occurs. -/
theorem auth_capacity_check (cfg : ServerCfg) (nLive : Nat)
    (recv : AuthReceive) (db : DBOracle) :
    (cfg.maxPlayers ≠ -1 → cfg.maxPlayers ≤ (nLive : Int) →
      Server.auth cfg nLive recv db =
        Except.error (AuthFail.valueErr "Server is full.") ∧
      ∀ (funcs : List (String × NetFunc))
        (units : List (PyScalar × ClUnit)) (script : List (Bool × InEvent))
        (i : Nat), units.length = nLive →
        (Server.clHandler cfg db funcs units recv script i).units = units) ∧
    (cfg.maxPlayers = -1 → ∀ nLive2 : Nat,
      Server.auth cfg nLive recv db = Server.auth cfg nLive2 recv db) := by
  constructor
  · intro h1 h2
    have hfull : Server.auth cfg nLive recv db =
        Except.error (AuthFail.valueErr "Server is full.") := by
      simp [Server.auth, h1, h2]
    refine ⟨hfull, ?_⟩
    intro funcs units script i hlen
    subst hlen
    simp [Server.clHandler, hfull]
  · intro h nLive2
    simp [Server.auth, h]

/-- Witness for C4: with `maxPlayers = 1` and one live connection, the
handshake is rejected as full and the live set is unchanged; with the
sentinel, the outcome is count-independent. -/
theorem auth_capacity_check_app :
    (Server.auth ⟨"srv", true, 1⟩ 1 AuthReceive.timeout
        ⟨fun _ _ => Except.ok (), fun _ _ => Except.ok ()⟩ =
      Except.error (AuthFail.valueErr "Server is full.") ∧
      ∀ (funcs : List (String × NetFunc))
        (units : List (PyScalar × ClUnit)) (script : List (Bool × InEvent))
        (i : Nat), units.length = 1 →
        (Server.clHandler ⟨"srv", true, 1⟩
          ⟨fun _ _ => Except.ok (), fun _ _ => Except.ok ()⟩
          funcs units AuthReceive.timeout script i).units = units) ∧
    (∀ nLive2 : Nat,
      Server.auth ⟨"srv", true, -1⟩ 5 AuthReceive.timeout
          ⟨fun _ _ => Except.ok (), fun _ _ => Except.ok ()⟩ =
        Server.auth ⟨"srv", true, -1⟩ nLive2 AuthReceive.timeout
          ⟨fun _ _ => Except.ok (), fun _ _ => Except.ok ()⟩) :=
  ⟨(auth_capacity_check ⟨"srv", true, 1⟩ 1 AuthReceive.timeout
      ⟨fun _ _ => Except.ok (), fun _ _ => Except.ok ()⟩).1
    (by decide) (by decide),
   (auth_capacity_check ⟨"srv", true, -1⟩ 5 AuthReceive.timeout
      ⟨fun _ _ => Except.ok (), fun _ _ => Except.ok ()⟩).2 rfl⟩

/-- C5: the claim says `_call_func` never raises to its caller, but the
source (server.py:54-60) evaluates `isinstance(arg_value, expected_type)`
BEFORE the `expected_type is not Any` guard, and
`expected_type = type_hints.get(arg_name, Any)` is `Any` for an unhinted
parameter: `isinstance` rejects `typing.Any` with a `TypeError`, raised
outside the `try` block and so propagated to the caller. Evaluating the
embedded code at the failing input — registry holding `g` with the
unhinted parameter `x`, dispatched with `x = 3` — shows the raise; the
declared-class mismatch path, by contrast, still returns the mismatch
log before invocation, as the spec describes. -/
theorem call_func_raises_on_unhinted_param :
    Server.callFunc [("g", ⟨["x"], [], fun _ => Except.ok ()⟩)]
        (PyScalar.str "g") [("x", PyObj.scalar (PyScalar.int 3))] =
      Except.error "typing.Any cannot be used with isinstance()" ∧
    Server.callFunc
        [("f", ⟨["x"], [("x", PyType.tInt)], fun _ => Except.ok ()⟩)]
        (PyScalar.str "f") [("x", PyObj.scalar (PyScalar.str "oops"))] =
      Except.ok (CallLog.typeMismatch "x") :=
  ⟨rfl, rfl⟩

/-- C6 counterexample: the claim quantifies over every RPC envelope
naming an absent method, but the envelope
`{"code": 20, "net_func_name": "pong", "cl_unit": 1}` makes
`cls._call_func(func_name, cl_unit=cl_unit, **receive_package)` raise a
duplicate-keyword `TypeError` at the call site: the loop body raises
instead of continuing, so the loop exits through the unexpected-error
path rather than proceeding to the next iteration. -/
theorem unknown_method_noop_counterexample :
    Server.loopIter [] ⟨PyScalar.str "bob", 0⟩
        (PyVal.dict [("code", PyScalar.int 20),
          ("net_func_name", PyScalar.str "pong"),
          ("cl_unit", PyScalar.int 1)]) =
      Except.error
        "got multiple values for keyword argument \x27cl_unit\x27" ∧
    Server.clLoopRun [] ⟨PyScalar.str "bob", 0⟩
        [(true, InEvent.pkg (PyVal.dict [("code", PyScalar.int 20),
          ("net_func_name", PyScalar.str "pong"),
          ("cl_unit", PyScalar.int 1)]))] =
      ([], some (LoopExit.unexpected
        "got multiple values for keyword argument \x27cl_unit\x27")) ∧
    Server.clLoopRun [] ⟨PyScalar.str "bob", 0⟩
        [(true, InEvent.pkg (PyVal.dict [("code", PyScalar.int 20),
          ("net_func_name", PyScalar.str "pong"),
          ("cl_unit", PyScalar.int 1)]))] ≠
      Server.clLoopRun [] ⟨PyScalar.str "bob", 0⟩ [] :=
  ⟨rfl, rfl, by decide⟩

/-- C6 (amended): for a method name absent from the registry, dispatch
itself returns the not-found log without raising, invoking anything or
sending anything; and at the loop level, an RPC envelope naming an
unknown method whose leftover fields carry neither a `cl_unit` nor a
`func_name` key (which would collide with the call's own arguments and
raise a `TypeError`) produces no reply, and the loop goes straight on to
the next iteration with the connection open. -/
theorem unknown_method_dispatch_noop
    (funcs : List (String × NetFunc)) (name : PyScalar)
    (kwargs : List (String × PyObj)) (u : ClUnit)
    (es : List (String × PyScalar)) (rest : List (Bool × InEvent))
    (hname : Server.lookupFunc funcs name = Option.none)
    (hcode : alistGet? es "code" = some (PyScalar.int 20))
    (hfn : Server.lookupFunc funcs
      ((alistGet? es "net_func_name").getD PyScalar.none) = Option.none)
    (h_cl : alistGet? es "cl_unit" = Option.none)
    (h_fn : alistGet? es "func_name" = Option.none) :
    Server.callFunc funcs name kwargs = Except.ok CallLog.notFound ∧
    Server.loopIter funcs u (PyVal.dict es) =
      Except.ok ([], some CallLog.notFound) ∧
    Server.clLoopRun funcs u ((true, InEvent.pkg (PyVal.dict es)) :: rest) =
      Server.clLoopRun funcs u rest := by
  have hiter : Server.loopIter funcs u (PyVal.dict es) =
      Except.ok ([], some CallLog.notFound) := by
    cases hpop : alistPop es "code" with
    | mk codeOpt rest1 =>
      have hc : codeOpt = some (PyScalar.int 20) := by
        have h0 := alistPop_fst es "code"
        rw [hpop, hcode] at h0
        exact h0
      subst hc
      cases hpop2 : alistPop rest1 "net_func_name" with
      | mk fnOpt rest2 =>
        have h2 : rest1 = (alistPop es "code").2 := by rw [hpop]
        have h4 : fnOpt = alistGet? es "net_func_name" := by
          have h1 := alistPop_fst rest1 "net_func_name"
          rw [hpop2] at h1
          have h3 : alistGet? rest1 "net_func_name" =
              alistGet? es "net_func_name" := by
            rw [h2]
            exact alistGet?_pop_ne es "code" "net_func_name" (by decide)
          rw [h3] at h1
          exact h1
        have hfn' : Server.lookupFunc funcs (fnOpt.getD PyScalar.none) =
            Option.none := by
          rw [h4]
          exact hfn
        have hcf : Server.callFunc funcs (fnOpt.getD PyScalar.none)
            (("cl_unit", PyObj.clUnit u)
              :: rest2.map (fun kv => (kv.1, PyObj.scalar kv.2))) =
            Except.ok CallLog.notFound := by
          unfold Server.callFunc
          rw [hfn']
        have h6 : rest2 = (alistPop rest1 "net_func_name").2 := by
          rw [hpop2]
        have hc_cl : alistGet? rest2 "cl_unit" = Option.none := by
          rw [h6, alistGet?_pop_ne rest1 "net_func_name" "cl_unit"
            (by decide), h2,
            alistGet?_pop_ne es "code" "cl_unit" (by decide)]
          exact h_cl
        have hc_fn : alistGet? rest2 "func_name" = Option.none := by
          rw [h6, alistGet?_pop_ne rest1 "net_func_name" "func_name"
            (by decide), h2,
            alistGet?_pop_ne es "code" "func_name" (by decide)]
          exact h_fn
        simp only [Server.loopIter, hpop, hpop2, pyTruthy,
          ResponseCode.is_net, ResponseCode.pyEqCode, ResponseCode.toInt]
        norm_num
        rw [hc_cl, hc_fn]
        simp only [Option.isSome_none, Bool.false_eq_true, if_false]
        rw [hcf]
  refine ⟨?_, hiter, ?_⟩
  · unfold Server.callFunc
    rw [hname]
  · cases hrest : Server.clLoopRun funcs u rest with
    | mk evs' ex =>
      simp only [Server.clLoopRun, hiter, hrest, Bool.not_true,
        List.nil_append]
      simp

/-- Witness for C6: a registry holding only `ping`, an envelope calling
`pong` with no colliding fields. -/
theorem unknown_method_dispatch_noop_app :
    Server.callFunc [("ping", ⟨["cl_unit"], [], fun _ => Except.ok ()⟩)]
        (PyScalar.str "pong") [] = Except.ok CallLog.notFound ∧
    Server.loopIter [("ping", ⟨["cl_unit"], [], fun _ => Except.ok ()⟩)]
        ⟨PyScalar.str "bob", 0⟩
        (PyVal.dict [("code", PyScalar.int 20),
          ("net_func_name", PyScalar.str "pong")]) =
      Except.ok ([], some CallLog.notFound) ∧
    Server.clLoopRun [("ping", ⟨["cl_unit"], [], fun _ => Except.ok ()⟩)]
        ⟨PyScalar.str "bob", 0⟩
        ((true, InEvent.pkg (PyVal.dict [("code", PyScalar.int 20),
          ("net_func_name", PyScalar.str "pong")])) :: []) =
      Server.clLoopRun [("ping", ⟨["cl_unit"], [], fun _ => Except.ok ()⟩)]
        ⟨PyScalar.str "bob", 0⟩ [] :=
  unknown_method_dispatch_noop
    [("ping", ⟨["cl_unit"], [], fun _ => Except.ok ()⟩)]
    (PyScalar.str "pong") [] ⟨PyScalar.str "bob", 0⟩
    [("code", PyScalar.int 20), ("net_func_name", PyScalar.str "pong")]
    [] rfl rfl rfl rfl rfl

/-- C7: a dispatched function receives exactly the keyword arguments
whose names are among its declared parameter names — the rest are
dropped — and adding undeclared keys never changes the outcome of the
call. -/
theorem dispatch_filters_kwargs
    (funcs : List (String × NetFunc)) (name : PyScalar)
    (kwargs : List (String × PyObj)) (f : NetFunc)
    (hf : Server.lookupFunc funcs name = some f) :
    (∀ args r, Server.callFunc funcs name kwargs =
        Except.ok (CallLog.invoked args r) →
      args = kwargs.filter (fun kv => f.params.contains kv.1)) ∧
    (∀ extra : List (String × PyObj),
      (∀ kv ∈ extra, f.params.contains kv.1 = false) →
      Server.callFunc funcs name (kwargs ++ extra) =
        Server.callFunc funcs name kwargs) := by
  constructor
  · intro args r h
    unfold Server.callFunc at h
    rw [hf] at h
    cases hm : Server.typeCheckArgs f (Server.validKwargs f kwargs) with
    | error e => simp [hm] at h
    | ok o =>
      cases o with
      | some a => simp [hm] at h
      | none =>
        cases hr : f.run (Server.validKwargs f kwargs) with
        | ok _ =>
          simp only [hm, hr, Except.ok.injEq, CallLog.invoked.injEq] at h
          exact h.1.symm
        | error e =>
          simp only [hm, hr, Except.ok.injEq, CallLog.invoked.injEq] at h
          exact h.1.symm
  · intro extra hextra
    have hfilter : Server.validKwargs f (kwargs ++ extra) =
        Server.validKwargs f kwargs := by
      unfold Server.validKwargs
      rw [List.filter_append]
      have : extra.filter (fun kv => f.params.contains kv.1) = [] := by
        rw [List.filter_eq_nil_iff]
        intro kv hkv
        rw [hextra kv hkv]
        exact Bool.false_ne_true
      rw [this, List.append_nil]
    unfold Server.callFunc
    rw [hf]
    simp only [hfilter]

/-- Witness for C7: `f(cl_unit: ClUnit, x: int)` called with an extra
undeclared key `junk`, which is dropped while the call still happens —
the invoked arguments are exactly the declared-parameter filter. -/
theorem dispatch_filters_kwargs_app :
    [("cl_unit", PyObj.clUnit ⟨PyScalar.str "bob", 0⟩),
     ("x", PyObj.scalar (PyScalar.int 1))] =
      [("cl_unit", PyObj.clUnit ⟨PyScalar.str "bob", 0⟩),
       ("x", PyObj.scalar (PyScalar.int 1)),
       ("junk", PyObj.scalar (PyScalar.str "z"))].filter
        (fun kv => (["cl_unit", "x"] : List String).contains kv.1) ∧
    Server.callFunc
        [("f", ⟨["cl_unit", "x"],
          [("cl_unit", PyType.tClUnit), ("x", PyType.tInt)],
          fun _ => Except.ok ()⟩)]
        (PyScalar.str "f")
        ([("cl_unit", PyObj.clUnit ⟨PyScalar.str "bob", 0⟩),
          ("x", PyObj.scalar (PyScalar.int 1))]
          ++ [("junk", PyObj.scalar (PyScalar.str "z"))]) =
      Server.callFunc
        [("f", ⟨["cl_unit", "x"],
          [("cl_unit", PyType.tClUnit), ("x", PyType.tInt)],
          fun _ => Except.ok ()⟩)]
        (PyScalar.str "f")
        [("cl_unit", PyObj.clUnit ⟨PyScalar.str "bob", 0⟩),
         ("x", PyObj.scalar (PyScalar.int 1))] :=
  ⟨(dispatch_filters_kwargs
      [("f", ⟨["cl_unit", "x"],
        [("cl_unit", PyType.tClUnit), ("x", PyType.tInt)],
        fun _ => Except.ok ()⟩)]
      (PyScalar.str "f")
      [("cl_unit", PyObj.clUnit ⟨PyScalar.str "bob", 0⟩),
       ("x", PyObj.scalar (PyScalar.int 1)),
       ("junk", PyObj.scalar (PyScalar.str "z"))]
      ⟨["cl_unit", "x"],
        [("cl_unit", PyType.tClUnit), ("x", PyType.tInt)],
        fun _ => Except.ok ()⟩ rfl).1
     [("cl_unit", PyObj.clUnit ⟨PyScalar.str "bob", 0⟩),
      ("x", PyObj.scalar (PyScalar.int 1))] Option.none rfl,
   (dispatch_filters_kwargs
      [("f", ⟨["cl_unit", "x"],
        [("cl_unit", PyType.tClUnit), ("x", PyType.tInt)],
        fun _ => Except.ok ()⟩)]
      (PyScalar.str "f")
      [("cl_unit", PyObj.clUnit ⟨PyScalar.str "bob", 0⟩),
       ("x", PyObj.scalar (PyScalar.int 1))]
      ⟨["cl_unit", "x"],
        [("cl_unit", PyType.tClUnit), ("x", PyType.tInt)],
        fun _ => Except.ok ()⟩ rfl).2
     [("junk", PyObj.scalar (PyScalar.str "z"))] (by decide)⟩

/-- C8: an envelope that is a mapping without a `code` field makes the
authenticated loop send the error-log reply and continue to the next
iteration, and while the loop is still running the connection is still
present in the live-connection set (the set is only touched on loop
exit). -/
theorem missing_code_error_and_continue
    (funcs : List (String × NetFunc)) (u : ClUnit)
    (es : List (String × PyScalar)) (rest : List (Bool × InEvent))
    (hmiss : alistGet? es "code" = Option.none) :
    Server.loopIter funcs u (PyVal.dict es) =
      Except.ok
        ([OutEvent.sendLogError "Receive data must has \x27code\x27 key."],
         Option.none) ∧
    Server.clLoopRun funcs u ((true, InEvent.pkg (PyVal.dict es)) :: rest) =
      (OutEvent.sendLogError "Receive data must has \x27code\x27 key."
        :: (Server.clLoopRun funcs u rest).1,
       (Server.clLoopRun funcs u rest).2) ∧
    (∀ (cfg : ServerCfg) (db : DBOracle)
       (units : List (PyScalar × ClUnit)) (recv : AuthReceive) (i : Nat)
       (login : PyScalar),
      Server.auth cfg units.length recv db = Except.ok login →
      (Server.clHandler cfg db funcs units recv
          [(true, InEvent.pkg (PyVal.dict es))] i).exit = Option.none ∧
      alistGet? (Server.clHandler cfg db funcs units recv
          [(true, InEvent.pkg (PyVal.dict es))] i).units login =
        some ⟨login, i⟩) := by
  have hiter : ∀ u' : ClUnit, Server.loopIter funcs u' (PyVal.dict es) =
      Except.ok
        ([OutEvent.sendLogError "Receive data must has \x27code\x27 key."],
         Option.none) := by
    intro u'
    cases hpop : alistPop es "code" with
    | mk codeOpt rest1 =>
      have hc : codeOpt = Option.none := by
        have h0 := alistPop_fst es "code"
        rw [hpop, hmiss] at h0
        exact h0
      subst hc
      simp [Server.loopIter, hpop, pyTruthy]
  refine ⟨hiter u, ?_, ?_⟩
  · cases hrest : Server.clLoopRun funcs u rest with
    | mk evs' ex =>
      simp only [Server.clLoopRun, hiter u, hrest, Bool.not_true]
      simp
  · intro cfg db units recv i login hauth
    have hrun1 : Server.clLoopRun funcs ⟨login, i⟩
        [(true, InEvent.pkg (PyVal.dict es))] =
        ([OutEvent.sendLogError "Receive data must has \x27code\x27 key."],
         Option.none) := by
      simp only [Server.clLoopRun, hiter ⟨login, i⟩, Bool.not_true]
      simp
    constructor
    · simp [Server.clHandler, hauth, hrun1]
    · simp only [Server.clHandler, hauth, hrun1]
      exact alistGet?_set_self units login ⟨login, i⟩

/-- Witness for C8: an envelope `{"data": 1}` with no `code` field. -/
theorem missing_code_error_and_continue_app :
    Server.loopIter [] ⟨PyScalar.str "bob", 0⟩
        (PyVal.dict [("data", PyScalar.int 1)]) =
      Except.ok
        ([OutEvent.sendLogError "Receive data must has \x27code\x27 key."],
         Option.none) ∧
    Server.clLoopRun [] ⟨PyScalar.str "bob", 0⟩
        ((true, InEvent.pkg (PyVal.dict [("data", PyScalar.int 1)])) :: []) =
      (OutEvent.sendLogError "Receive data must has \x27code\x27 key."
        :: (Server.clLoopRun [] ⟨PyScalar.str "bob", 0⟩ []).1,
       (Server.clLoopRun [] ⟨PyScalar.str "bob", 0⟩ []).2) ∧
    (∀ (cfg : ServerCfg) (db : DBOracle)
       (units : List (PyScalar × ClUnit)) (recv : AuthReceive) (i : Nat)
       (login : PyScalar),
      Server.auth cfg units.length recv db = Except.ok login →
      (Server.clHandler cfg db [] units recv
          [(true, InEvent.pkg (PyVal.dict [("data", PyScalar.int 1)]))]
          i).exit = Option.none ∧
      alistGet? (Server.clHandler cfg db [] units recv
          [(true, InEvent.pkg (PyVal.dict [("data", PyScalar.int 1)]))]
          i).units login = some ⟨login, i⟩) :=
  missing_code_error_and_continue [] ⟨PyScalar.str "bob", 0⟩
    [("data", PyScalar.int 1)] [] rfl

/-- C10: a `code` field that is present but falsy (for example `0` or
`False`) is treated by both the message loop and the handshake exactly as
a missing `code` field — the missing-key error, not the unknown-code
one. -/
theorem falsy_code_as_missing
    (funcs : List (String × NetFunc)) (u : ClUnit)
    (es : List (String × PyScalar)) (cv : PyScalar)
    (hget : alistGet? es "code" = some cv)
    (hfalsy : pyTruthy cv = false) :
    Server.loopIter funcs u (PyVal.dict es) =
      Except.ok
        ([OutEvent.sendLogError "Receive data must has \x27code\x27 key."],
         Option.none) ∧
    Server.authCodeCheck (PyVal.dict es) =
      Except.error
        (AuthFail.valueErr "Receive data must has \x27code\x27 key.") := by
  constructor
  · cases hpop : alistPop es "code" with
    | mk codeOpt rest1 =>
      have hc : codeOpt = some cv := by
        have h0 := alistPop_fst es "code"
        rw [hpop, hget] at h0
        exact h0
      subst hc
      simp [Server.loopIter, hpop, hfalsy]
  · simp [Server.authCodeCheck, hget, hfalsy]

/-- Witness for C10: the envelope `{"code": 0}`. -/
theorem falsy_code_as_missing_app :
    Server.loopIter [] ⟨PyScalar.str "bob", 0⟩
        (PyVal.dict [("code", PyScalar.int 0)]) =
      Except.ok
        ([OutEvent.sendLogError "Receive data must has \x27code\x27 key."],
         Option.none) ∧
    Server.authCodeCheck (PyVal.dict [("code", PyScalar.int 0)]) =
      Except.error
        (AuthFail.valueErr "Receive data must has \x27code\x27 key.") :=
  falsy_code_as_missing [] ⟨PyScalar.str "bob", 0⟩
    [("code", PyScalar.int 0)] (PyScalar.int 0) rfl rfl

set_option maxHeartbeats 1000000 in
/-- An integer converts to a `ResponseCode` member exactly when it is
that member's wire integer. -/
theorem ofInt?_eq_some_iff (n : Int) (c : ResponseCode) :
    ResponseCode.ofInt? n = some c ↔ n = c.toInt := by
  constructor
  · intro h
    unfold ResponseCode.ofInt? at h
    split_ifs at h <;> (injection h with h'; subst h'; assumption)
  · intro h
    subst h
    cases c <;> rfl

/-- A scalar that converts to a `ResponseCode` member is exactly that
member's wire integer. -/
theorem ofVal?_eq_some_iff (v : PyScalar) (c : ResponseCode) :
    ResponseCode.ofVal? v = some c ↔ v = PyScalar.int c.toInt := by
  constructor
  · intro h
    cases v with
    | int n =>
      simp only [ResponseCode.ofVal?] at h
      rw [ofInt?_eq_some_iff] at h
      rw [h]
    | bool b =>
      cases b <;> simp [ResponseCode.ofVal?, ResponseCode.ofInt?] at h
    | none => simp [ResponseCode.ofVal?] at h
    | str s => simp [ResponseCode.ofVal?] at h
  · intro h
    subst h
    cases c <;> rfl

/-- C1: for a handshake reply that is a mapping with a `code` field, the
code validation of `_auth` passes exactly when the code is the
login-answer `11` or the register-answer `12`; any other code fails it
with a `ValueError` carrying a non-empty (descriptive) reason, and a
failed handshake never adds the connection to the live set. -/
theorem auth_code_band_validation
    (es : List (String × PyScalar)) (cv : PyScalar)
    (hcv : alistGet? es "code" = some cv) :
    ((∃ c, Server.authCodeCheck (PyVal.dict es) = Except.ok c) ↔
      (cv = PyScalar.int 11 ∨ cv = PyScalar.int 12)) ∧
    (cv ≠ PyScalar.int 11 → cv ≠ PyScalar.int 12 →
      ∃ m, Server.authCodeCheck (PyVal.dict es) =
        Except.error (AuthFail.valueErr m) ∧ m ≠ "") ∧
    (∀ (cfg : ServerCfg) (db : DBOracle) (funcs : List (String × NetFunc))
       (units : List (PyScalar × ClUnit)) (recv : AuthReceive)
       (script : List (Bool × InEvent)) (i : Nat) (f : AuthFail),
      Server.auth cfg units.length recv db = Except.error f →
      (Server.clHandler cfg db funcs units recv script i).units =
        units) := by
  have hcheck : Server.authCodeCheck (PyVal.dict es) =
      (if !pyTruthy cv then
        Except.error
          (AuthFail.valueErr "Receive data must has \x27code\x27 key.")
      else
        match ResponseCode.ofVal? cv with
        | Option.none =>
          Except.error (AuthFail.valueErr
            (pyRepr cv ++ " is not a valid ResponseCode"))
        | some c =>
          if !ResponseCode.is_client_auth c then
            Except.error
              (AuthFail.valueErr "Unknown \x27code\x27 for auth type.")
          else Except.ok c) := by
    simp only [Server.authCodeCheck, hcv, Option.getD_some]
  refine ⟨⟨?_, ?_⟩, ?_, ?_⟩
  · rintro ⟨c, hok⟩
    rw [hcheck] at hok
    cases ht : pyTruthy cv with
    | false => simp [ht] at hok
    | true =>
      simp only [ht, Bool.not_true] at hok
      rw [if_neg (by simp)] at hok
      cases hov : ResponseCode.ofVal? cv with
      | none =>
        simp only [hov] at hok
        exact Except.noConfusion hok
      | some c' =>
        simp only [hov] at hok
        by_cases hca : ResponseCode.is_client_auth c' = true
        · have hc' : c' = ResponseCode.AUTH_ANS_LOGIN ∨
              c' = ResponseCode.AUTH_ANS_REGIS := by
            cases c' <;> first
              | exact Or.inl rfl
              | exact Or.inr rfl
              | exact absurd hca (by decide)
          have hv := (ofVal?_eq_some_iff cv c').1 hov
          rcases hc' with h | h
          · subst h
            exact Or.inl (by simpa [ResponseCode.toInt] using hv)
          · subst h
            exact Or.inr (by simpa [ResponseCode.toInt] using hv)
        · rw [if_pos (by simp [Bool.not_eq_true] at hca ⊢; exact hca)]
            at hok
          exact Except.noConfusion hok
  · rintro (h | h)
    · subst h
      exact ⟨ResponseCode.AUTH_ANS_LOGIN, by rw [hcheck]; rfl⟩
    · subst h
      exact ⟨ResponseCode.AUTH_ANS_REGIS, by rw [hcheck]; rfl⟩
  · intro h11 h12
    rw [hcheck]
    cases ht : pyTruthy cv with
    | false =>
      rw [if_pos (by simp)]
      exact ⟨_, rfl, by decide⟩
    | true =>
      simp only [Bool.not_true]
      rw [if_neg (by simp)]
      cases hov : ResponseCode.ofVal? cv with
      | none =>
        simp only [hov]
        refine ⟨_, rfl, ?_⟩
        intro hcontra
        have hlen := congrArg String.length hcontra
        rw [String.length_append] at hlen
        have h28 : (" is not a valid ResponseCode" : String).length = 28 :=
          rfl
        have h0 : ("" : String).length = 0 := rfl
        rw [h28, h0] at hlen
        omega
      | some c' =>
        simp only [hov]
        have hv := (ofVal?_eq_some_iff cv c').1 hov
        have hc11 : c' ≠ ResponseCode.AUTH_ANS_LOGIN := by
          intro hh
          subst hh
          exact h11 (by simpa [ResponseCode.toInt] using hv)
        have hc12 : c' ≠ ResponseCode.AUTH_ANS_REGIS := by
          intro hh
          subst hh
          exact h12 (by simpa [ResponseCode.toInt] using hv)
        have hca : ResponseCode.is_client_auth c' = false := by
          cases c' <;> first
            | rfl
            | exact absurd rfl hc11
            | exact absurd rfl hc12
        rw [if_pos (by simp [hca])]
        exact ⟨_, rfl, by decide⟩
  · intro cfg db funcs units recv script i f hauth
    simp [Server.clHandler, hauth]

/-- Witness for C1 at the concrete replies `{"code": 11}` (accepted) and
`{"code": 19}` (rejected with a descriptive `ValueError`). -/
theorem auth_code_band_validation_app :
    (∃ c, Server.authCodeCheck
        (PyVal.dict [("code", PyScalar.int 11)]) = Except.ok c) ∧
    (∃ m, Server.authCodeCheck
        (PyVal.dict [("code", PyScalar.int 19)]) =
      Except.error (AuthFail.valueErr m) ∧ m ≠ "") :=
  ⟨((auth_code_band_validation [("code", PyScalar.int 11)]
      (PyScalar.int 11) rfl).1).2 (Or.inl rfl),
   ((auth_code_band_validation [("code", PyScalar.int 19)]
      (PyScalar.int 19) rfl).2).1 (by decide) (by decide)⟩

/-- C3: whatever way the message loop exits — server offline,
disconnect-class transport failure, cancellation, or any other
exception — `_cl_handler`'s cleanup removes the connection's entry from
the live-connection set and issues its transport disconnect; and popping
an identity that is already absent is a no-op, not an error. -/
theorem loop_exit_cleanup
    (cfg : ServerCfg) (db : DBOracle) (funcs : List (String × NetFunc))
    (units : List (PyScalar × ClUnit)) (recv : AuthReceive)
    (script : List (Bool × InEvent)) (i : Nat) (login : PyScalar)
    (ex : LoopExit) (evs : List OutEvent)
    (hnodup : (units.map Prod.fst).Nodup)
    (hauth : Server.auth cfg units.length recv db = Except.ok login)
    (hrun : Server.clLoopRun funcs ⟨login, i⟩ script = (evs, some ex)) :
    (Server.clHandler cfg db funcs units recv script i).units =
      (alistPop (alistSet units login ⟨login, i⟩) login).2 ∧
    alistGet? (Server.clHandler cfg db funcs units recv script i).units
      login = Option.none ∧
    OutEvent.disconnect ∈
      (Server.clHandler cfg db funcs units recv script i).out ∧
    (∀ (l : List (PyScalar × ClUnit)) (k : PyScalar),
      alistGet? l k = Option.none → (alistPop l k).2 = l) := by
  have hres : Server.clHandler cfg db funcs units recv script i =
      ⟨(alistPop (alistSet units login ⟨login, i⟩) login).2,
        evs ++ Server.loopExitEvents ex ++ [OutEvent.disconnect],
        some (HandlerExit.loopDone ex)⟩ := by
    simp [Server.clHandler, hauth, hrun]
  refine ⟨?_, ?_, ?_, ?_⟩
  · rw [hres]
  · rw [hres]
    exact alistGet?_pop_self_nodup (keys_alistSet_nodup hnodup)
  · rw [hres]
    exact List.mem_append_right _ (by simp)
  · intro l k h
    exact alistPop_absent l k h

/-- Witness for C3: a successful login handshake followed by the server
going offline; the unit is removed again and disconnected. -/
theorem loop_exit_cleanup_app :
    (Server.clHandler ⟨"srv", true, -1⟩
        ⟨fun _ _ => Except.ok (), fun _ _ => Except.ok ()⟩ [] []
        (AuthReceive.pkg (PyVal.dict
          [("code", PyScalar.int 11), ("login", PyScalar.str "bob"),
           ("password", PyScalar.str "pw")]))
        [(false, InEvent.pkg (PyVal.dict []))] 0).units =
      (alistPop (alistSet [] (PyScalar.str "bob")
        ⟨PyScalar.str "bob", 0⟩) (PyScalar.str "bob")).2 ∧
    alistGet? (Server.clHandler ⟨"srv", true, -1⟩
        ⟨fun _ _ => Except.ok (), fun _ _ => Except.ok ()⟩ [] []
        (AuthReceive.pkg (PyVal.dict
          [("code", PyScalar.int 11), ("login", PyScalar.str "bob"),
           ("password", PyScalar.str "pw")]))
        [(false, InEvent.pkg (PyVal.dict []))] 0).units
      (PyScalar.str "bob") = Option.none ∧
    OutEvent.disconnect ∈ (Server.clHandler ⟨"srv", true, -1⟩
        ⟨fun _ _ => Except.ok (), fun _ _ => Except.ok ()⟩ [] []
        (AuthReceive.pkg (PyVal.dict
          [("code", PyScalar.int 11), ("login", PyScalar.str "bob"),
           ("password", PyScalar.str "pw")]))
        [(false, InEvent.pkg (PyVal.dict []))] 0).out ∧
    (∀ (l : List (PyScalar × ClUnit)) (k : PyScalar),
      alistGet? l k = Option.none → (alistPop l k).2 = l) :=
  loop_exit_cleanup ⟨"srv", true, -1⟩
    ⟨fun _ _ => Except.ok (), fun _ _ => Except.ok ()⟩ [] []
    (AuthReceive.pkg (PyVal.dict
      [("code", PyScalar.int 11), ("login", PyScalar.str "bob"),
       ("password", PyScalar.str "pw")]))
    [(false, InEvent.pkg (PyVal.dict []))] 0 (PyScalar.str "bob")
    LoopExit.offline [] (by simp) rfl rfl

/-- C9: a handshake completing with a login already present in the live
set inserts its unit by plain key assignment (`alistSet`), which silently
replaces the existing entry — the old unit is no longer reachable under
that login — and the later cleanup keyed by the shared login removes
whichever entry is present. -/
theorem duplicate_login_replaces
    (cfg : ServerCfg) (db : DBOracle) (funcs : List (String × NetFunc))
    (units : List (PyScalar × ClUnit)) (recv : AuthReceive) (i : Nat)
    (login : PyScalar) (uOld : ClUnit)
    (hnodup : (units.map Prod.fst).Nodup)
    (hold : alistGet? units login = some uOld)
    (hauth : Server.auth cfg units.length recv db = Except.ok login) :
    (Server.clHandler cfg db funcs units recv [] i).units =
      alistSet units login ⟨login, i⟩ ∧
    alistGet? (Server.clHandler cfg db funcs units recv [] i).units
      login = some ⟨login, i⟩ ∧
    (uOld ≠ ⟨login, i⟩ →
      (login, uOld) ∉ (Server.clHandler cfg db funcs units recv [] i).units) ∧
    alistGet? (alistPop
      (Server.clHandler cfg db funcs units recv [] i).units login).2
      login = Option.none := by
  have hres : Server.clHandler cfg db funcs units recv [] i =
      ⟨alistSet units login ⟨login, i⟩, [], Option.none⟩ := by
    simp [Server.clHandler, hauth, Server.clLoopRun]
  refine ⟨?_, ?_, ?_, ?_⟩
  · rw [hres]
  · rw [hres]
    exact alistGet?_set_self units login ⟨login, i⟩
  · intro hne
    rw [hres]
    intro hmem
    exact hne (mem_alistSet_self hnodup hmem)
  · rw [hres]
    exact alistGet?_pop_self_nodup (keys_alistSet_nodup hnodup)

/-- Witness for C9: "bob" reconnects while an old "bob" connection is
still tracked; the new unit replaces the old one, and the cleanup empties
the key. -/
theorem duplicate_login_replaces_app :
    (Server.clHandler ⟨"srv", true, -1⟩
        ⟨fun _ _ => Except.ok (), fun _ _ => Except.ok ()⟩ []
        [(PyScalar.str "bob", ⟨PyScalar.str "bob", 0⟩)]
        (AuthReceive.pkg (PyVal.dict
          [("code", PyScalar.int 11), ("login", PyScalar.str "bob"),
           ("password", PyScalar.str "pw")])) [] 1).units =
      alistSet [(PyScalar.str "bob", ⟨PyScalar.str "bob", 0⟩)]
        (PyScalar.str "bob") ⟨PyScalar.str "bob", 1⟩ ∧
    alistGet? (Server.clHandler ⟨"srv", true, -1⟩
        ⟨fun _ _ => Except.ok (), fun _ _ => Except.ok ()⟩ []
        [(PyScalar.str "bob", ⟨PyScalar.str "bob", 0⟩)]
        (AuthReceive.pkg (PyVal.dict
          [("code", PyScalar.int 11), ("login", PyScalar.str "bob"),
           ("password", PyScalar.str "pw")])) [] 1).units
      (PyScalar.str "bob") = some ⟨PyScalar.str "bob", 1⟩ ∧
    ((⟨PyScalar.str "bob", 0⟩ : ClUnit) ≠ ⟨PyScalar.str "bob", 1⟩ →
      (PyScalar.str "bob", (⟨PyScalar.str "bob", 0⟩ : ClUnit)) ∉
        (Server.clHandler ⟨"srv", true, -1⟩
          ⟨fun _ _ => Except.ok (), fun _ _ => Except.ok ()⟩ []
          [(PyScalar.str "bob", ⟨PyScalar.str "bob", 0⟩)]
          (AuthReceive.pkg (PyVal.dict
            [("code", PyScalar.int 11), ("login", PyScalar.str "bob"),
             ("password", PyScalar.str "pw")])) [] 1).units) ∧
    alistGet? (alistPop (Server.clHandler ⟨"srv", true, -1⟩
        ⟨fun _ _ => Except.ok (), fun _ _ => Except.ok ()⟩ []
        [(PyScalar.str "bob", ⟨PyScalar.str "bob", 0⟩)]
        (AuthReceive.pkg (PyVal.dict
          [("code", PyScalar.int 11), ("login", PyScalar.str "bob"),
           ("password", PyScalar.str "pw")])) [] 1).units
      (PyScalar.str "bob")).2 (PyScalar.str "bob") = Option.none :=
  duplicate_login_replaces ⟨"srv", true, -1⟩
    ⟨fun _ _ => Except.ok (), fun _ _ => Except.ok ()⟩ []
    [(PyScalar.str "bob", ⟨PyScalar.str "bob", 0⟩)]
    (AuthReceive.pkg (PyVal.dict
      [("code", PyScalar.int 11), ("login", PyScalar.str "bob"),
       ("password", PyScalar.str "pw")])) 1 (PyScalar.str "bob")
    ⟨PyScalar.str "bob", 0⟩ (by simp) rfl rfl
